import Mathlib

/-!
Shallow embedding of the todo-app backend (Express + Mongoose server,
`src/unnamed/part_000`), covering the authentication and
ownership-authorization model: the token codec, the auth service
(register/login) and the four task routes with their three-way token
dispatch (no token / valid token / invalid token).

Modelling conventions:
* MongoDB object ids and user ids are `Nat`; timestamps are `Nat` seconds.
* The todo collection is a `List Todo`; `_id` lookup is first-match, which
  coincides with Mongo lookup since `_id` is unique.
* Request-body fields that may be absent are `Option` values; the JS falsy
  test `!x` on a string field is `none` or the empty string.
* `bcrypt` is kept abstract: `register` takes the hash function and `login`
  the comparison function as parameters, since no claim depends on their
  internals.
-/

set_option autoImplicit false

namespace TodoApp

/-- A todo document, from the `todoSchema` of the server: `title` (required),
`completed` (default `false`), `userId` (optional owner reference) and
`createdAt`.  The Mongo `_id` is the `id` field. -/
structure Todo where
  id : Nat
  title : String
  completed : Bool
  userId : Option Nat
  createdAt : Nat
deriving Repr, DecidableEq

/-- A user document, from the `userSchema` of the server: `email` (unique,
stored lowercased by the schema's `lowercase: true` setter), `password`
(the bcrypt hash), `name`, `createdAt`. -/
structure User where
  id : Nat
  email : String
  password : String
  name : String
  createdAt : Nat
deriving Repr, DecidableEq

/-! ## Token codec

Modelled from the spec: the server signs and verifies tokens with the
external `jsonwebtoken` library, whose code is not part of this repository.
Per spec section 4.2 the codec encodes the user id plus a 24-hour expiry and
signs with the process secret; verification fails on missing, malformed,
expired or mis-signed tokens. -/

/-- 24 hours in seconds: the `expiresIn: '24h'` argument of `jwt.sign`. -/
def daySeconds : Nat := 24 * 60 * 60

/-- A decoded token payload: the `userId` claim, the expiry `exp`, and the
signature over the payload. -/
structure Token where
  userId : Nat
  exp : Nat
  sig : Nat
deriving Repr, DecidableEq

/-- Modelled from the spec: the signature the codec computes over a payload
with a given secret.  Any concrete function works for the claims; the codec
only ever compares a token's stored signature with the recomputed one. -/
def mkSig (secret userId exp : Nat) : Nat :=
  (secret + 1) * 1000003 + userId * 1009 + exp * 31

/-- Modelled from the spec: `jwt.sign({ userId }, secret, { expiresIn: '24h' })`
issues a token carrying the user id, an expiry 24 hours from now, and a
signature under `secret`. -/
def jwtSign (secret userId now : Nat) : Token :=
  { userId := userId, exp := now + daySeconds,
    sig := mkSig secret userId (now + daySeconds) }

/-- A raw token string as it arrives in the authorization header: either
well-formed (decodes to a payload) or malformed. -/
inductive RawToken where
  | malformed (s : String)
  | wellFormed (t : Token)
deriving Repr, DecidableEq

/-- The ways verification can fail (`jwt.verify` throwing). -/
inductive TokenError where
  | missing
  | badFormat
  | badSignature
  | expired
deriving Repr, DecidableEq

/-- Modelled from the spec: `jwt.verify(token, secret)` on a present token:
fails on malformed input, on a signature that does not match the secret, and
on an expired token (now at or past `exp`); otherwise returns the `userId`
claim. -/
def jwtVerifyTok (secret now : Nat) : RawToken → Except TokenError Nat
  | .malformed _ => .error .badFormat
  | .wellFormed t =>
    if t.sig ≠ mkSig secret t.userId t.exp then .error .badSignature
    else if t.exp ≤ now then .error .expired
    else .ok t.userId

/-- Modelled from the spec: verification of an optional token; an absent
token fails with `missing`. -/
def jwtVerify (secret now : Nat) : Option RawToken → Except TokenError Nat
  | none => .error .missing
  | some raw => jwtVerifyTok secret now raw

/-! ## HTTP responses -/

/-- The observable part of a route's JSON response: the status code, an
optional JSON body of the route's payload type, and an optional `message`
field for error bodies. -/
structure HttpResp (α : Type) where
  status : Nat
  body : Option α
  message : Option String
deriving Repr, DecidableEq

/-! ## Task store primitives (Mongo/Mongoose operations used by the routes) -/

/-- Insert into a list already sorted by descending `createdAt`. -/
def insertDesc (t : Todo) : List Todo → List Todo
  | [] => [t]
  | h :: rest =>
    if h.createdAt ≤ t.createdAt then t :: h :: rest
    else h :: insertDesc t rest

/-- `.sort({ createdAt: -1 })`: most-recently-created first. -/
def sortDesc (l : List Todo) : List Todo :=
  l.foldr insertDesc []

/-- The partial update payload of `PUT /api/todos/:id`: the server copies
`title` and `completed` into `updateData` only when they are present
(`!== undefined`) in the request body. -/
structure UpdateData where
  title : Option String
  completed : Option Bool
deriving Repr, DecidableEq

/-- Apply an `updateData` document to a todo: `$set` of the present fields
only. -/
def applyUpdate (upd : UpdateData) (t : Todo) : Todo :=
  { t with title := upd.title.getD t.title,
           completed := upd.completed.getD t.completed }

/-- `findOneAndUpdate(filter, updateData, { new: true })`: update the first
document matching the filter and return the updated document, or `none` when
nothing matches. -/
def findOneAndUpdate (p : Todo → Bool) (upd : UpdateData) :
    List Todo → Option Todo × List Todo
  | [] => (none, [])
  | t :: rest =>
    if p t then (some (applyUpdate upd t), applyUpdate upd t :: rest)
    else
      let r := findOneAndUpdate p upd rest
      (r.1, t :: r.2)

/-- `findOneAndDelete(filter)`: remove the first document matching the filter
and return it, or `none` when nothing matches. -/
def findOneAndDelete (p : Todo → Bool) :
    List Todo → Option Todo × List Todo
  | [] => (none, [])
  | t :: rest =>
    if p t then (some t, rest)
    else
      let r := findOneAndDelete p rest
      (r.1, t :: r.2)

/-! ## Task routes

Each route receives the optional bearer token already extracted from the
authorization header (`authHeader && authHeader.split(' ')[1]`): absence of
the header or of the token segment is `none`.  Each route re-derives the
same three-way dispatch inline, exactly as the server does. -/

/-- `GET /api/todos`: with a verifying token, `Todo.find({ userId })` sorted
by `createdAt` descending; with no token or a failing token,
`Todo.find()` sorted the same way (backward compatibility).  Always 200. -/
def getTodos (secret now : Nat) (auth : Option RawToken) (db : List Todo) :
    HttpResp (List Todo) :=
  let todos :=
    match auth with
    | some raw =>
      match jwtVerifyTok secret now raw with
      | .ok u => sortDesc (db.filter (fun t => t.userId == some u))
      | .error _ => sortDesc db
    | none => sortDesc db
  { status := 200, body := some todos, message := none }

/-- `POST /api/todos`: `completed = req.body.completed || false`; 400 when
the title is falsy; owner is the verified user id when the token verifies,
`null` otherwise; 201 with the saved todo. -/
def createTodo (secret now : Nat) (auth : Option RawToken)
    (title : Option String) (completedIn : Option Bool)
    (newId createdAt : Nat) (db : List Todo) :
    HttpResp Todo × List Todo :=
  let completed := completedIn.getD false
  match title with
  | none => ({ status := 400, body := none, message := some "Title is required" }, db)
  | some s =>
    if s = "" then
      ({ status := 400, body := none, message := some "Title is required" }, db)
    else
      let userId : Option Nat :=
        match auth with
        | some raw =>
          match jwtVerifyTok secret now raw with
          | .ok u => some u
          | .error _ => none
        | none => none
      let todo : Todo :=
        { id := newId, title := s, completed := completed,
          userId := userId, createdAt := createdAt }
      ({ status := 201, body := some todo, message := none }, todo :: db)

/-- The filter `{ _id: id, $or: [{ userId: u }, { userId: null }] }` used by
update and delete under a verifying token. -/
def ownedOrLegacy (u id : Nat) (t : Todo) : Bool :=
  t.id == id && (t.userId == some u || t.userId == none)

/-- The filter `{ _id: id }` of `findByIdAndUpdate` / `findByIdAndDelete`. -/
def byId (id : Nat) (t : Todo) : Bool :=
  t.id == id

/-- The three-way dispatch update and delete both perform on `:id` routes:
with a verifying token the filter is `ownedOrLegacy`; with no token or a
failing token it is the plain `byId` filter of the `findById*` calls. -/
def writeFilter (secret now : Nat) (auth : Option RawToken) (id : Nat) :
    Todo → Bool :=
  match auth with
  | some raw =>
    match jwtVerifyTok secret now raw with
    | .ok u => ownedOrLegacy u id
    | .error _ => byId id
  | none => byId id

/-- `PUT /api/todos/:id`: with a verifying token, update restricted to
`ownedOrLegacy`; with no token or a failing token, `findByIdAndUpdate`
(any todo).  404 when nothing matched, else 200 with the updated todo. -/
def updateTodo (secret now : Nat) (auth : Option RawToken) (id : Nat)
    (upd : UpdateData) (db : List Todo) :
    HttpResp Todo × List Todo :=
  let r := findOneAndUpdate (writeFilter secret now auth id) upd db
  match r.1 with
  | none => ({ status := 404, body := none, message := some "Todo not found" }, r.2)
  | some t => ({ status := 200, body := some t, message := none }, r.2)

/-- `DELETE /api/todos/:id`: same dispatch as update with
`findOneAndDelete` / `findByIdAndDelete`; 404 when nothing matched, else 200
with a confirmation message. -/
def deleteTodo (secret now : Nat) (auth : Option RawToken) (id : Nat)
    (db : List Todo) : HttpResp Todo × List Todo :=
  let r := findOneAndDelete (writeFilter secret now auth id) db
  match r.1 with
  | none => ({ status := 404, body := none, message := some "Todo not found" }, r.2)
  | some _ =>
    ({ status := 200, body := none, message := some "Todo deleted successfully" }, r.2)

/-! ## Auth service -/

/-- JS falsiness of an optional string field (`!x`): absent or empty. -/
def isFalsy : Option String → Bool
  | none => true
  | some s => s == ""

/-- Lowercase every character of a list. -/
def lowerChars : List Char → List Char
  | [] => []
  | c :: cs => c.toLower :: lowerChars cs

/-- The `lowercase: true` normalization the `userSchema` applies to stored
emails and that Mongoose applies to `findOne({ email })` filter values:
lowercase the string character by character. -/
def normalizeEmail (e : String) : String :=
  ⟨lowerChars e.data⟩

/-- The redacted identity view returned by register and login. -/
structure UserView where
  id : Nat
  email : String
  name : String
deriving Repr, DecidableEq

/-- The success body of register and login: message, token, user view. -/
structure AuthSuccess where
  message : String
  token : Token
  user : UserView
deriving Repr, DecidableEq

/-- `POST /api/register`: 400 when email, password or name is falsy; 400
conflict when a user with the (normalized) email exists; otherwise hash the
password, save the user, issue a token and answer 201. -/
def register (hash : String → String) (secret : Nat) (db : List User)
    (email password name : Option String) (newId now : Nat) :
    HttpResp AuthSuccess × List User :=
  if isFalsy email || isFalsy password || isFalsy name then
    ({ status := 400, body := none,
       message := some "Email, password, and name are required" }, db)
  else
    let e := normalizeEmail (email.getD "")
    match db.find? (fun u => u.email == e) with
    | some _ =>
      ({ status := 400, body := none,
         message := some "User already exists with this email" }, db)
    | none =>
      let user : User :=
        { id := newId, email := e, password := hash (password.getD ""),
          name := name.getD "", createdAt := now }
      let token := jwtSign secret newId now
      ({ status := 201,
         body := some { message := "User registered successfully",
                        token := token,
                        user := { id := newId, email := e, name := name.getD "" } },
         message := none }, user :: db)

/-- `POST /api/login`: 400 when email or password is falsy; 400 with the
generic message when no user matches the email or when the bcrypt comparison
fails; otherwise issue a fresh token and answer 200. -/
def login (compare : String → String → Bool) (secret : Nat) (db : List User)
    (email password : Option String) (now : Nat) : HttpResp AuthSuccess :=
  if isFalsy email || isFalsy password then
    { status := 400, body := none,
      message := some "Email and password are required" }
  else
    match db.find? (fun u => u.email == normalizeEmail (email.getD "")) with
    | none =>
      { status := 400, body := none, message := some "Invalid email or password" }
    | some u =>
      if compare (password.getD "") u.password then
        { status := 200,
          body := some { message := "Login successful",
                         token := jwtSign secret u.id now,
                         user := { id := u.id, email := u.email, name := u.name } },
          message := none }
      else
        { status := 400, body := none, message := some "Invalid email or password" }

/-! ## Lemmas about the store primitives -/

/-- Descending order on `createdAt`, the order `.sort({ createdAt: -1 })`
produces. -/
def createdDesc (a b : Todo) : Prop :=
  b.createdAt ≤ a.createdAt

theorem sortDesc_cons (t : Todo) (l : List Todo) :
    sortDesc (t :: l) = insertDesc t (sortDesc l) := rfl

theorem mem_insertDesc {a t : Todo} {l : List Todo} :
    a ∈ insertDesc t l ↔ a = t ∨ a ∈ l := by
  induction l with
  | nil => simp [insertDesc]
  | cons h rest ih =>
    simp only [insertDesc]
    split
    · simp
    · simp only [List.mem_cons, ih]
      tauto

theorem mem_sortDesc {a : Todo} {l : List Todo} : a ∈ sortDesc l ↔ a ∈ l := by
  induction l with
  | nil => simp [sortDesc]
  | cons h rest ih =>
    rw [sortDesc_cons, mem_insertDesc, ih]
    simp

theorem pairwise_insertDesc {t : Todo} {l : List Todo}
    (h : l.Pairwise createdDesc) :
    (insertDesc t l).Pairwise createdDesc := by
  induction l with
  | nil => simp [insertDesc]
  | cons hd rest ih =>
    rw [List.pairwise_cons] at h
    simp only [insertDesc]
    split
    · rename_i hle
      refine List.pairwise_cons.2 ⟨?_, List.pairwise_cons.2 ⟨h.1, h.2⟩⟩
      intro b hb
      rcases List.mem_cons.1 hb with rfl | hb
      · exact hle
      · exact le_trans (h.1 b hb) hle
    · rename_i hnle
      refine List.pairwise_cons.2 ⟨?_, ih h.2⟩
      intro b hb
      rcases mem_insertDesc.1 hb with rfl | hb
      · unfold createdDesc
        omega
      · exact h.1 b hb

theorem pairwise_sortDesc (l : List Todo) :
    (sortDesc l).Pairwise createdDesc := by
  induction l with
  | nil => simp [sortDesc]
  | cons h rest ih =>
    rw [sortDesc_cons]
    exact pairwise_insertDesc ih

theorem findOneAndUpdate_of_no_match {p : Todo → Bool} {upd : UpdateData}
    {db : List Todo} (h : ∀ t ∈ db, p t = false) :
    findOneAndUpdate p upd db = (none, db) := by
  induction db with
  | nil => rfl
  | cons t rest ih =>
    simp only [findOneAndUpdate]
    rw [h t (by simp)]
    simp [ih fun x hx => h x (by simp [hx])]

theorem findOneAndUpdate_fst_some {p : Todo → Bool} {upd : UpdateData}
    {db : List Todo} {t' : Todo}
    (h : (findOneAndUpdate p upd db).1 = some t') :
    ∃ t ∈ db, p t = true ∧ t' = applyUpdate upd t := by
  induction db with
  | nil => simp [findOneAndUpdate] at h
  | cons t rest ih =>
    simp only [findOneAndUpdate] at h
    by_cases hp : p t
    · simp only [hp, if_true] at h
      exact ⟨t, by simp, hp, (Option.some_inj.1 h).symm⟩
    · simp only [hp, if_false, Bool.false_eq_true] at h
      obtain ⟨x, hx, hpx, he⟩ := ih h
      exact ⟨x, by simp [hx], hpx, he⟩

theorem findOneAndUpdate_fst_isSome {p : Todo → Bool} {upd : UpdateData}
    {db : List Todo} (h : ∃ t ∈ db, p t = true) :
    ((findOneAndUpdate p upd db).1).isSome := by
  induction db with
  | nil => simp at h
  | cons t rest ih =>
    simp only [findOneAndUpdate]
    by_cases hp : p t
    · simp [hp]
    · simp only [hp, if_false, Bool.false_eq_true]
      obtain ⟨x, hx, hpx⟩ := h
      rcases List.mem_cons.1 hx with rfl | hx
      · exact absurd hpx (by simp [hp])
      · exact ih ⟨x, hx, hpx⟩

theorem findOneAndDelete_of_no_match {p : Todo → Bool}
    {db : List Todo} (h : ∀ t ∈ db, p t = false) :
    findOneAndDelete p db = (none, db) := by
  induction db with
  | nil => rfl
  | cons t rest ih =>
    simp only [findOneAndDelete]
    rw [h t (by simp)]
    simp [ih fun x hx => h x (by simp [hx])]

theorem findOneAndDelete_fst_some {p : Todo → Bool}
    {db : List Todo} {t' : Todo}
    (h : (findOneAndDelete p db).1 = some t') :
    t' ∈ db ∧ p t' = true := by
  induction db with
  | nil => simp [findOneAndDelete] at h
  | cons t rest ih =>
    simp only [findOneAndDelete] at h
    by_cases hp : p t
    · simp only [hp, if_true] at h
      obtain rfl := Option.some_inj.1 h
      exact ⟨by simp, hp⟩
    · simp only [hp, if_false, Bool.false_eq_true] at h
      obtain ⟨hx, hpx⟩ := ih h
      exact ⟨by simp [hx], hpx⟩

theorem findOneAndDelete_fst_isSome {p : Todo → Bool}
    {db : List Todo} (h : ∃ t ∈ db, p t = true) :
    ((findOneAndDelete p db).1).isSome := by
  induction db with
  | nil => simp at h
  | cons t rest ih =>
    simp only [findOneAndDelete]
    by_cases hp : p t
    · simp [hp]
    · simp only [hp, if_false, Bool.false_eq_true]
      obtain ⟨x, hx, hpx⟩ := h
      rcases List.mem_cons.1 hx with rfl | hx
      · exact absurd hpx (by simp [hp])
      · exact ih ⟨x, hx, hpx⟩

theorem applyUpdate_empty (t : Todo) :
    applyUpdate { title := none, completed := none } t = t := rfl

theorem findOneAndUpdate_empty (p : Todo → Bool) (db : List Todo) :
    findOneAndUpdate p { title := none, completed := none } db
      = (db.find? p, db) := by
  induction db with
  | nil => rfl
  | cons t rest ih =>
    simp only [findOneAndUpdate, applyUpdate_empty, List.find?]
    by_cases hp : p t
    · simp [hp]
    · simp [hp, ih]

/-! ## Route-level helper lemmas -/

theorem writeFilter_invalid {secret now : Nat} {raw : RawToken} {err : TokenError}
    (hv : jwtVerifyTok secret now raw = .error err) (id : Nat) :
    writeFilter secret now (some raw) id = byId id := by
  simp [writeFilter, hv]

theorem writeFilter_valid {secret now u : Nat} {raw : RawToken}
    (hv : jwtVerifyTok secret now raw = .ok u) (id : Nat) :
    writeFilter secret now (some raw) id = ownedOrLegacy u id := by
  simp [writeFilter, hv]

theorem writeFilter_none (secret now id : Nat) :
    writeFilter secret now none id = byId id := rfl

theorem getTodos_status (secret now : Nat) (auth : Option RawToken)
    (db : List Todo) : (getTodos secret now auth db).status = 200 := rfl

theorem createTodo_status (secret now : Nat) (auth : Option RawToken)
    (title : Option String) (completedIn : Option Bool)
    (newId createdAt : Nat) (db : List Todo) :
    (createTodo secret now auth title completedIn newId createdAt db).1.status = 400
    ∨ (createTodo secret now auth title completedIn newId createdAt db).1.status = 201 := by
  cases title with
  | none => left; rfl
  | some s =>
    by_cases hs : s = ""
    · left
      simp [createTodo, hs]
    · right
      simp [createTodo, hs]

theorem updateTodo_status (secret now : Nat) (auth : Option RawToken) (id : Nat)
    (upd : UpdateData) (db : List Todo) :
    (updateTodo secret now auth id upd db).1.status = 404
    ∨ (updateTodo secret now auth id upd db).1.status = 200 := by
  unfold updateTodo
  cases h : (findOneAndUpdate (writeFilter secret now auth id) upd db).1 with
  | none => left; simp [h]
  | some t => right; simp [h]

theorem deleteTodo_status (secret now : Nat) (auth : Option RawToken) (id : Nat)
    (db : List Todo) :
    (deleteTodo secret now auth id db).1.status = 404
    ∨ (deleteTodo secret now auth id db).1.status = 200 := by
  unfold deleteTodo
  cases h : (findOneAndDelete (writeFilter secret now auth id) db).1 with
  | none => left; simp [h]
  | some t => right; simp [h]

/-! ## Claims -/

/-- C6: round-trip of the token codec.  A token produced by `jwtSign` for a
user id verifies back to that same user id at any time strictly before the
24-hour expiry and fails verification from the expiry on; verification also
fails on missing, malformed, and wrongly-signed tokens. -/
theorem claim_C6_token_roundtrip (secret u t0 t : Nat) (s : String) (tok : Token) :
    (t < t0 + daySeconds →
      jwtVerify secret t (some (.wellFormed (jwtSign secret u t0))) = .ok u)
    ∧ (t0 + daySeconds ≤ t →
      jwtVerify secret t (some (.wellFormed (jwtSign secret u t0))) = .error .expired)
    ∧ jwtVerify secret t none = .error .missing
    ∧ jwtVerify secret t (some (.malformed s)) = .error .badFormat
    ∧ (tok.sig ≠ mkSig secret tok.userId tok.exp →
      jwtVerify secret t (some (.wellFormed tok)) = .error .badSignature) := by
  refine ⟨?_, ?_, rfl, rfl, ?_⟩
  · intro h
    have h' : ¬ (t0 + daySeconds ≤ t) := by omega
    simp [jwtVerify, jwtVerifyTok, jwtSign, h']
  · intro h
    simp [jwtVerify, jwtVerifyTok, jwtSign, h]
  · intro h
    simp [jwtVerify, jwtVerifyTok, h]

/-- Witness for C6 at concrete inputs. -/
theorem claim_C6_token_roundtrip_witness :
    jwtVerify 3 200 (some (.wellFormed (jwtSign 3 7 100))) = .ok 7
    ∧ jwtVerify 3 (100 + daySeconds) (some (.wellFormed (jwtSign 3 7 100)))
        = .error .expired
    ∧ jwtVerify 3 200 none = .error .missing
    ∧ jwtVerify 3 200 (some (.malformed "x")) = .error .badFormat
    ∧ jwtVerify 3 200 (some (.wellFormed { userId := 7, exp := 999999, sig := 0 }))
        = .error .badSignature :=
  ⟨(claim_C6_token_roundtrip 3 7 100 200 "x" ⟨0, 0, 0⟩).1 (by decide),
   (claim_C6_token_roundtrip 3 7 100 (100 + daySeconds) "x" ⟨0, 0, 0⟩).2.1 (by decide),
   (claim_C6_token_roundtrip 3 7 100 200 "x" ⟨0, 0, 0⟩).2.2.1,
   (claim_C6_token_roundtrip 3 7 100 200 "x" ⟨0, 0, 0⟩).2.2.2.1,
   (claim_C6_token_roundtrip 3 7 100 200 "x" ⟨7, 999999, 0⟩).2.2.2.2 (by decide)⟩

/-- C9: on every list request, in every branch of the token dispatch, the
returned task list is ordered most-recently-created first (descending
`createdAt`). -/
theorem claim_C9_list_order (secret now : Nat) (auth : Option RawToken)
    (db : List Todo) :
    ((getTodos secret now auth db).body.getD []).Pairwise createdDesc := by
  unfold getTodos
  cases auth with
  | none => exact pairwise_sortDesc db
  | some raw =>
    cases h : jwtVerifyTok secret now raw with
    | ok u =>
      simp only [h]
      exact pairwise_sortDesc _
    | error e =>
      simp only [h]
      exact pairwise_sortDesc db

/-- C3: a list request whose token verifies to `u` returns exactly the tasks
owned by `u` (unowned tasks and other users' tasks excluded); a list request
with no token returns every task. -/
theorem claim_C3_list_filtering (secret now u : Nat) (raw : RawToken)
    (db : List Todo) (hv : jwtVerifyTok secret now raw = .ok u) :
    (∀ t, t ∈ (getTodos secret now (some raw) db).body.getD []
        ↔ t ∈ db ∧ t.userId = some u)
    ∧ (∀ t, t ∈ (getTodos secret now none db).body.getD [] ↔ t ∈ db) := by
  constructor
  · intro t
    simp only [getTodos, hv, Option.getD_some]
    rw [mem_sortDesc, List.mem_filter]
    simp
  · intro t
    simp only [getTodos, Option.getD_some]
    rw [mem_sortDesc]

/-- C1: a task request whose token fails verification behaves exactly like a
request with no token, on all four operations, and is never answered with
401 or 403. -/
theorem claim_C1_invalid_token_fallback (secret now : Nat) (raw : RawToken)
    (err : TokenError) (hv : jwtVerifyTok secret now raw = .error err)
    (db : List Todo) (title : Option String) (completedIn : Option Bool)
    (newId createdAt id : Nat) (upd : UpdateData) :
    getTodos secret now (some raw) db = getTodos secret now none db
    ∧ createTodo secret now (some raw) title completedIn newId createdAt db
        = createTodo secret now none title completedIn newId createdAt db
    ∧ updateTodo secret now (some raw) id upd db
        = updateTodo secret now none id upd db
    ∧ deleteTodo secret now (some raw) id db
        = deleteTodo secret now none id db
    ∧ (getTodos secret now (some raw) db).status ≠ 401
    ∧ (getTodos secret now (some raw) db).status ≠ 403
    ∧ (createTodo secret now (some raw) title completedIn newId createdAt db).1.status ≠ 401
    ∧ (createTodo secret now (some raw) title completedIn newId createdAt db).1.status ≠ 403
    ∧ (updateTodo secret now (some raw) id upd db).1.status ≠ 401
    ∧ (updateTodo secret now (some raw) id upd db).1.status ≠ 403
    ∧ (deleteTodo secret now (some raw) id db).1.status ≠ 401
    ∧ (deleteTodo secret now (some raw) id db).1.status ≠ 403 := by
  refine ⟨?_, ?_, ?_, ?_, ?_, ?_, ?_, ?_, ?_, ?_, ?_, ?_⟩
  · simp [getTodos, hv]
  · cases title with
    | none => rfl
    | some s =>
      by_cases hs : s = "" <;> simp [createTodo, hs, hv]
  · simp only [updateTodo, writeFilter_invalid hv, writeFilter_none]
  · simp only [deleteTodo, writeFilter_invalid hv, writeFilter_none]
  · rw [getTodos_status]
    omega
  · rw [getTodos_status]
    omega
  · rcases createTodo_status secret now (some raw) title completedIn newId createdAt db
      with h | h <;> omega
  · rcases createTodo_status secret now (some raw) title completedIn newId createdAt db
      with h | h <;> omega
  · rcases updateTodo_status secret now (some raw) id upd db with h | h <;> omega
  · rcases updateTodo_status secret now (some raw) id upd db with h | h <;> omega
  · rcases deleteTodo_status secret now (some raw) id db with h | h <;> omega
  · rcases deleteTodo_status secret now (some raw) id db with h | h <;> omega

/-- Witness for C1 at a concrete malformed token and store. -/
theorem claim_C1_invalid_token_fallback_witness :
    getTodos 0 0 (some (.malformed "zz")) [{ id := 1, title := "a", completed := false, userId := none, createdAt := 0 }]
        = getTodos 0 0 none [{ id := 1, title := "a", completed := false, userId := none, createdAt := 0 }]
    ∧ createTodo 0 0 (some (.malformed "zz")) (some "t") none 2 1 [{ id := 1, title := "a", completed := false, userId := none, createdAt := 0 }]
        = createTodo 0 0 none (some "t") none 2 1 [{ id := 1, title := "a", completed := false, userId := none, createdAt := 0 }]
    ∧ updateTodo 0 0 (some (.malformed "zz")) 1 { title := none, completed := some true } [{ id := 1, title := "a", completed := false, userId := none, createdAt := 0 }]
        = updateTodo 0 0 none 1 { title := none, completed := some true } [{ id := 1, title := "a", completed := false, userId := none, createdAt := 0 }]
    ∧ deleteTodo 0 0 (some (.malformed "zz")) 1 [{ id := 1, title := "a", completed := false, userId := none, createdAt := 0 }]
        = deleteTodo 0 0 none 1 [{ id := 1, title := "a", completed := false, userId := none, createdAt := 0 }]
    ∧ (getTodos 0 0 (some (.malformed "zz")) [{ id := 1, title := "a", completed := false, userId := none, createdAt := 0 }]).status ≠ 401
    ∧ (getTodos 0 0 (some (.malformed "zz")) [{ id := 1, title := "a", completed := false, userId := none, createdAt := 0 }]).status ≠ 403
    ∧ (createTodo 0 0 (some (.malformed "zz")) (some "t") none 2 1 [{ id := 1, title := "a", completed := false, userId := none, createdAt := 0 }]).1.status ≠ 401
    ∧ (createTodo 0 0 (some (.malformed "zz")) (some "t") none 2 1 [{ id := 1, title := "a", completed := false, userId := none, createdAt := 0 }]).1.status ≠ 403
    ∧ (updateTodo 0 0 (some (.malformed "zz")) 1 { title := none, completed := some true } [{ id := 1, title := "a", completed := false, userId := none, createdAt := 0 }]).1.status ≠ 401
    ∧ (updateTodo 0 0 (some (.malformed "zz")) 1 { title := none, completed := some true } [{ id := 1, title := "a", completed := false, userId := none, createdAt := 0 }]).1.status ≠ 403
    ∧ (deleteTodo 0 0 (some (.malformed "zz")) 1 [{ id := 1, title := "a", completed := false, userId := none, createdAt := 0 }]).1.status ≠ 401
    ∧ (deleteTodo 0 0 (some (.malformed "zz")) 1 [{ id := 1, title := "a", completed := false, userId := none, createdAt := 0 }]).1.status ≠ 403 :=
  claim_C1_invalid_token_fallback 0 0 (.malformed "zz") .badFormat rfl
    [{ id := 1, title := "a", completed := false, userId := none, createdAt := 0 }]
    (some "t") none 2 1 1 { title := none, completed := some true }

/-- Witness for C3 at a concrete token and store holding an owned and an
unowned task. -/
theorem claim_C3_list_filtering_witness :
    (Todo.mk 1 "a" false (some 5) 3
        ∈ (getTodos 0 10 (some (.wellFormed (jwtSign 0 5 0)))
            [{ id := 1, title := "a", completed := false, userId := some 5, createdAt := 3 },
             { id := 2, title := "b", completed := false, userId := none, createdAt := 9 }]).body.getD []
      ↔ Todo.mk 1 "a" false (some 5) 3
          ∈ [{ id := 1, title := "a", completed := false, userId := some 5, createdAt := 3 },
             { id := 2, title := "b", completed := false, userId := none, createdAt := 9 }]
        ∧ (Todo.mk 1 "a" false (some 5) 3).userId = some 5)
    ∧ (Todo.mk 2 "b" false none 9
        ∈ (getTodos 0 10 none
            [{ id := 1, title := "a", completed := false, userId := some 5, createdAt := 3 },
             { id := 2, title := "b", completed := false, userId := none, createdAt := 9 }]).body.getD []
      ↔ Todo.mk 2 "b" false none 9
          ∈ [{ id := 1, title := "a", completed := false, userId := some 5, createdAt := 3 },
             { id := 2, title := "b", completed := false, userId := none, createdAt := 9 }]) :=
  ⟨(claim_C3_list_filtering 0 10 5 (.wellFormed (jwtSign 0 5 0))
      [{ id := 1, title := "a", completed := false, userId := some 5, createdAt := 3 },
       { id := 2, title := "b", completed := false, userId := none, createdAt := 9 }] rfl).1
      (Todo.mk 1 "a" false (some 5) 3),
   (claim_C3_list_filtering 0 10 5 (.wellFormed (jwtSign 0 5 0))
      [{ id := 1, title := "a", completed := false, userId := some 5, createdAt := 3 },
       { id := 2, title := "b", completed := false, userId := none, createdAt := 9 }] rfl).2
      (Todo.mk 2 "b" false none 9)⟩

theorem ownedOrLegacy_iff {u id : Nat} {t : Todo} :
    ownedOrLegacy u id t = true
      ↔ t.id = id ∧ (t.userId = some u ∨ t.userId = none) := by
  simp [ownedOrLegacy]

theorem byId_iff {id : Nat} {t : Todo} : byId id t = true ↔ t.id = id := by
  simp [byId]

/-- C2: under a token verifying to `u`, update and delete succeed only on a
task with the requested id that is owned by `u` or unowned; when every task
with that id is owned by someone else, and when no task has that id, both
requests get the identical 404 response and leave the store unchanged; and
when an owned-or-unowned task with that id exists the request succeeds. -/
theorem claim_C2_write_ownership (secret now u : Nat) (raw : RawToken) (id : Nat)
    (upd : UpdateData) (db : List Todo)
    (hv : jwtVerifyTok secret now raw = .ok u) :
    (∀ t', (updateTodo secret now (some raw) id upd db).1.body = some t' →
      ∃ t ∈ db, t.id = id ∧ (t.userId = some u ∨ t.userId = none)
        ∧ t' = applyUpdate upd t)
    ∧ ((∀ t ∈ db, t.id = id → t.userId ≠ some u ∧ t.userId ≠ none) →
      updateTodo secret now (some raw) id upd db
        = ({ status := 404, body := none, message := some "Todo not found" }, db))
    ∧ ((∀ t ∈ db, t.id ≠ id) →
      updateTodo secret now (some raw) id upd db
        = ({ status := 404, body := none, message := some "Todo not found" }, db))
    ∧ ((∃ t ∈ db, t.id = id ∧ (t.userId = some u ∨ t.userId = none)) →
      (updateTodo secret now (some raw) id upd db).1.status = 200)
    ∧ ((deleteTodo secret now (some raw) id db).1.status = 200 →
      ∃ t ∈ db, t.id = id ∧ (t.userId = some u ∨ t.userId = none))
    ∧ ((∀ t ∈ db, t.id = id → t.userId ≠ some u ∧ t.userId ≠ none) →
      deleteTodo secret now (some raw) id db
        = ({ status := 404, body := none, message := some "Todo not found" }, db))
    ∧ ((∀ t ∈ db, t.id ≠ id) →
      deleteTodo secret now (some raw) id db
        = ({ status := 404, body := none, message := some "Todo not found" }, db))
    ∧ ((∃ t ∈ db, t.id = id ∧ (t.userId = some u ∨ t.userId = none)) →
      (deleteTodo secret now (some raw) id db).1.status = 200) := by
  have hw := writeFilter_valid hv id
  have hOwnedElse : (∀ t ∈ db, t.id = id → t.userId ≠ some u ∧ t.userId ≠ none) →
      ∀ t ∈ db, ownedOrLegacy u id t = false := by
    intro h t ht
    by_cases hid : t.id = id
    · obtain ⟨h1, h2⟩ := h t ht hid
      simp [ownedOrLegacy, hid, h1, h2]
    · simp [ownedOrLegacy, hid]
  have hNoId : (∀ t ∈ db, t.id ≠ id) →
      ∀ t ∈ db, ownedOrLegacy u id t = false := by
    intro h t ht
    simp [ownedOrLegacy, h t ht]
  refine ⟨?_, ?_, ?_, ?_, ?_, ?_, ?_, ?_⟩
  · intro t' hb
    cases h : (findOneAndUpdate (ownedOrLegacy u id) upd db).1 with
    | none => simp [updateTodo, hw, h] at hb
    | some t0 =>
      simp only [updateTodo, hw, h] at hb
      obtain rfl : t0 = t' := by simpa using hb
      obtain ⟨t, ht, hp, he⟩ := findOneAndUpdate_fst_some h
      rw [ownedOrLegacy_iff] at hp
      exact ⟨t, ht, hp.1, hp.2, he⟩
  · intro h
    simp only [updateTodo, hw, findOneAndUpdate_of_no_match (hOwnedElse h)]
  · intro h
    simp only [updateTodo, hw, findOneAndUpdate_of_no_match (hNoId h)]
  · intro h
    have hsome : ∃ t ∈ db, ownedOrLegacy u id t = true := by
      obtain ⟨t, ht, h1, h2⟩ := h
      exact ⟨t, ht, ownedOrLegacy_iff.2 ⟨h1, h2⟩⟩
    obtain ⟨t0, ht0⟩ :=
      Option.isSome_iff_exists.1
        (@findOneAndUpdate_fst_isSome (ownedOrLegacy u id) upd db hsome)
    simp [updateTodo, hw, ht0]
  · intro h
    cases hr : (findOneAndDelete (ownedOrLegacy u id) db).1 with
    | none => simp [deleteTodo, hw, hr] at h
    | some t0 =>
      obtain ⟨ht0, hp⟩ := findOneAndDelete_fst_some hr
      rw [ownedOrLegacy_iff] at hp
      exact ⟨t0, ht0, hp⟩
  · intro h
    simp only [deleteTodo, hw, findOneAndDelete_of_no_match (hOwnedElse h)]
  · intro h
    simp only [deleteTodo, hw, findOneAndDelete_of_no_match (hNoId h)]
  · intro h
    have hsome : ∃ t ∈ db, ownedOrLegacy u id t = true := by
      obtain ⟨t, ht, h1, h2⟩ := h
      exact ⟨t, ht, ownedOrLegacy_iff.2 ⟨h1, h2⟩⟩
    obtain ⟨t0, ht0⟩ :=
      Option.isSome_iff_exists.1 (findOneAndDelete_fst_isSome hsome)
    simp [deleteTodo, hw, ht0]

/-- Witness for C2: user 5's token updates and deletes their own task,
gets 404 on user 9's task and on a missing id, with the store unchanged. -/
theorem claim_C2_write_ownership_witness :
    (∃ t ∈ [{ id := 1, title := "a", completed := false, userId := some 5, createdAt := 3 : Todo }],
      t.id = 1 ∧ (t.userId = some 5 ∨ t.userId = none)
        ∧ Todo.mk 1 "a" true (some 5) 3 = applyUpdate { title := none, completed := some true } t)
    ∧ updateTodo 0 10 (some (.wellFormed (jwtSign 0 5 0))) 1 { title := none, completed := some true }
        [{ id := 1, title := "a", completed := false, userId := some 9, createdAt := 3 }]
        = ({ status := 404, body := none, message := some "Todo not found" },
           [{ id := 1, title := "a", completed := false, userId := some 9, createdAt := 3 }])
    ∧ updateTodo 0 10 (some (.wellFormed (jwtSign 0 5 0))) 2 { title := none, completed := some true }
        [{ id := 1, title := "a", completed := false, userId := some 9, createdAt := 3 }]
        = ({ status := 404, body := none, message := some "Todo not found" },
           [{ id := 1, title := "a", completed := false, userId := some 9, createdAt := 3 }])
    ∧ (updateTodo 0 10 (some (.wellFormed (jwtSign 0 5 0))) 1 { title := none, completed := some true }
        [{ id := 1, title := "a", completed := false, userId := some 5, createdAt := 3 }]).1.status = 200
    ∧ (∃ t ∈ [{ id := 1, title := "a", completed := false, userId := some 5, createdAt := 3 : Todo }],
      t.id = 1 ∧ (t.userId = some 5 ∨ t.userId = none))
    ∧ deleteTodo 0 10 (some (.wellFormed (jwtSign 0 5 0))) 1
        [{ id := 1, title := "a", completed := false, userId := some 9, createdAt := 3 }]
        = ({ status := 404, body := none, message := some "Todo not found" },
           [{ id := 1, title := "a", completed := false, userId := some 9, createdAt := 3 }])
    ∧ deleteTodo 0 10 (some (.wellFormed (jwtSign 0 5 0))) 2
        [{ id := 1, title := "a", completed := false, userId := some 9, createdAt := 3 }]
        = ({ status := 404, body := none, message := some "Todo not found" },
           [{ id := 1, title := "a", completed := false, userId := some 9, createdAt := 3 }])
    ∧ (deleteTodo 0 10 (some (.wellFormed (jwtSign 0 5 0))) 1
        [{ id := 1, title := "a", completed := false, userId := some 5, createdAt := 3 }]).1.status = 200 :=
  ⟨(claim_C2_write_ownership 0 10 5 (.wellFormed (jwtSign 0 5 0)) 1
      { title := none, completed := some true }
      [{ id := 1, title := "a", completed := false, userId := some 5, createdAt := 3 }] rfl).1
      (Todo.mk 1 "a" true (some 5) 3) rfl,
   (claim_C2_write_ownership 0 10 5 (.wellFormed (jwtSign 0 5 0)) 1
      { title := none, completed := some true }
      [{ id := 1, title := "a", completed := false, userId := some 9, createdAt := 3 }] rfl).2.1
      (by decide),
   (claim_C2_write_ownership 0 10 5 (.wellFormed (jwtSign 0 5 0)) 2
      { title := none, completed := some true }
      [{ id := 1, title := "a", completed := false, userId := some 9, createdAt := 3 }] rfl).2.2.1
      (by decide),
   (claim_C2_write_ownership 0 10 5 (.wellFormed (jwtSign 0 5 0)) 1
      { title := none, completed := some true }
      [{ id := 1, title := "a", completed := false, userId := some 5, createdAt := 3 }] rfl).2.2.2.1
      (by decide),
   (claim_C2_write_ownership 0 10 5 (.wellFormed (jwtSign 0 5 0)) 1
      { title := none, completed := some true }
      [{ id := 1, title := "a", completed := false, userId := some 5, createdAt := 3 }] rfl).2.2.2.2.1
      rfl,
   (claim_C2_write_ownership 0 10 5 (.wellFormed (jwtSign 0 5 0)) 1
      { title := none, completed := some true }
      [{ id := 1, title := "a", completed := false, userId := some 9, createdAt := 3 }] rfl).2.2.2.2.2.1
      (by decide),
   (claim_C2_write_ownership 0 10 5 (.wellFormed (jwtSign 0 5 0)) 2
      { title := none, completed := some true }
      [{ id := 1, title := "a", completed := false, userId := some 9, createdAt := 3 }] rfl).2.2.2.2.2.2.1
      (by decide),
   (claim_C2_write_ownership 0 10 5 (.wellFormed (jwtSign 0 5 0)) 1
      { title := none, completed := some true }
      [{ id := 1, title := "a", completed := false, userId := some 5, createdAt := 3 }] rfl).2.2.2.2.2.2.2
      (by decide)⟩

theorem createTodo_body_completed {secret now : Nat} {auth : Option RawToken}
    {title : Option String} {completedIn : Option Bool}
    {newId createdAt : Nat} {db : List Todo} {t' : Todo}
    (hb : (createTodo secret now auth title completedIn newId createdAt db).1.body
        = some t') :
    t'.completed = completedIn.getD false := by
  cases title with
  | none => simp [createTodo] at hb
  | some s =>
    by_cases hs : s = ""
    · simp [createTodo, hs] at hb
    · simp only [createTodo, hs, if_false] at hb
      obtain rfl : _ = t' := by simpa using hb
      rfl

/-- C4: creating a task with a non-empty title sets `ownerId` to the
verified caller when the token verifies, and leaves it unset on no token or
a failing token; `completed` defaults to `false` when not supplied. -/
theorem claim_C4_create_owner (secret now : Nat) (raw : RawToken) (u : Nat)
    (s : String) (completedIn : Option Bool) (newId createdAt : Nat)
    (db : List Todo) (hs : s ≠ "") :
    (jwtVerifyTok secret now raw = .ok u →
      createTodo secret now (some raw) (some s) completedIn newId createdAt db
        = ({ status := 201,
             body := some { id := newId, title := s,
                            completed := completedIn.getD false,
                            userId := some u, createdAt := createdAt },
             message := none },
           { id := newId, title := s, completed := completedIn.getD false,
             userId := some u, createdAt := createdAt } :: db))
    ∧ (∀ err, jwtVerifyTok secret now raw = .error err →
      createTodo secret now (some raw) (some s) completedIn newId createdAt db
        = ({ status := 201,
             body := some { id := newId, title := s,
                            completed := completedIn.getD false,
                            userId := none, createdAt := createdAt },
             message := none },
           { id := newId, title := s, completed := completedIn.getD false,
             userId := none, createdAt := createdAt } :: db))
    ∧ createTodo secret now none (some s) completedIn newId createdAt db
        = ({ status := 201,
             body := some { id := newId, title := s,
                            completed := completedIn.getD false,
                            userId := none, createdAt := createdAt },
             message := none },
           { id := newId, title := s, completed := completedIn.getD false,
             userId := none, createdAt := createdAt } :: db)
    ∧ (∀ auth t', completedIn = none →
      (createTodo secret now auth (some s) completedIn newId createdAt db).1.body
          = some t' →
      t'.completed = false) := by
  refine ⟨?_, ?_, ?_, ?_⟩
  · intro hv
    simp [createTodo, hs, hv]
  · intro err hv
    simp [createTodo, hs, hv]
  · simp [createTodo, hs]
  · intro auth t' hc hb
    rw [createTodo_body_completed hb, hc]
    rfl

/-- Witness for C4 with a valid token, a malformed token, and no token. -/
theorem claim_C4_create_owner_witness :
    (createTodo 0 10 (some (.wellFormed (jwtSign 0 5 0))) (some "buy milk") none 2 11 []
        = ({ status := 201,
             body := some { id := 2, title := "buy milk", completed := Option.getD none false,
                            userId := some 5, createdAt := 11 },
             message := none },
           [{ id := 2, title := "buy milk", completed := Option.getD none false,
              userId := some 5, createdAt := 11 }]))
    ∧ (createTodo 0 10 (some (.malformed "zz")) (some "buy milk") none 2 11 []
        = ({ status := 201,
             body := some { id := 2, title := "buy milk", completed := Option.getD none false,
                            userId := none, createdAt := 11 },
             message := none },
           [{ id := 2, title := "buy milk", completed := Option.getD none false,
              userId := none, createdAt := 11 }]))
    ∧ (createTodo 0 10 none (some "buy milk") none 2 11 []
        = ({ status := 201,
             body := some { id := 2, title := "buy milk", completed := Option.getD none false,
                            userId := none, createdAt := 11 },
             message := none },
           [{ id := 2, title := "buy milk", completed := Option.getD none false,
              userId := none, createdAt := 11 }]))
    ∧ (Todo.mk 2 "buy milk" false none 11).completed = false :=
  ⟨(claim_C4_create_owner 0 10 (.wellFormed (jwtSign 0 5 0)) 5 "buy milk" none 2 11 []
      (by decide)).1 rfl,
   (claim_C4_create_owner 0 10 (.malformed "zz") 0 "buy milk" none 2 11 []
      (by decide)).2.1 .badFormat rfl,
   (claim_C4_create_owner 0 10 (.malformed "zz") 0 "buy milk" none 2 11 []
      (by decide)).2.2.1,
   (claim_C4_create_owner 0 10 (.malformed "zz") 0 "buy milk" none 2 11 []
      (by decide)).2.2.2 none (Todo.mk 2 "buy milk" false none 11) rfl rfl⟩

/-- C7: an update applies exactly the fields present in the payload to the
matched task; absent fields, and the fields outside `title`/`completed`
(`id`, `userId`, `createdAt`), are unchanged; in particular a payload with
only `completed := true` leaves `title` unchanged. -/
theorem claim_C7_update_frame (secret now : Nat) (auth : Option RawToken)
    (id : Nat) (upd : UpdateData) (db : List Todo) (t' : Todo)
    (hb : (updateTodo secret now auth id upd db).1.body = some t') :
    ∃ t ∈ db, t' = applyUpdate upd t
      ∧ t'.id = t.id ∧ t'.userId = t.userId ∧ t'.createdAt = t.createdAt
      ∧ (upd.title = none → t'.title = t.title)
      ∧ (upd.completed = none → t'.completed = t.completed)
      ∧ (upd.title = none → upd.completed = some true →
          t'.title = t.title ∧ t'.completed = true) := by
  cases h : (findOneAndUpdate (writeFilter secret now auth id) upd db).1 with
  | none => simp [updateTodo, h] at hb
  | some t0 =>
    simp only [updateTodo, h] at hb
    obtain rfl : t0 = t' := by simpa using hb
    obtain ⟨t, ht, hp, rfl⟩ := findOneAndUpdate_fst_some h
    refine ⟨t, ht, rfl, rfl, rfl, rfl, ?_, ?_, ?_⟩
    · intro h1
      simp [applyUpdate, h1]
    · intro h2
      simp [applyUpdate, h2]
    · intro h1 h2
      simp [applyUpdate, h1, h2]

/-- Witness for C7: updating only `completed` leaves `title` as it was. -/
theorem claim_C7_update_frame_witness :
    ∃ t ∈ [{ id := 1, title := "a", completed := false, userId := some 5, createdAt := 3 : Todo }],
      Todo.mk 1 "a" true (some 5) 3 = applyUpdate { title := none, completed := some true } t
      ∧ (Todo.mk 1 "a" true (some 5) 3).id = t.id
      ∧ (Todo.mk 1 "a" true (some 5) 3).userId = t.userId
      ∧ (Todo.mk 1 "a" true (some 5) 3).createdAt = t.createdAt
      ∧ ((none : Option String) = none → (Todo.mk 1 "a" true (some 5) 3).title = t.title)
      ∧ ((some true : Option Bool) = none →
          (Todo.mk 1 "a" true (some 5) 3).completed = t.completed)
      ∧ ((none : Option String) = none → (some true : Option Bool) = some true →
          (Todo.mk 1 "a" true (some 5) 3).title = t.title
            ∧ (Todo.mk 1 "a" true (some 5) 3).completed = true) :=
  claim_C7_update_frame 0 0 none 1 { title := none, completed := some true }
    [{ id := 1, title := "a", completed := false, userId := some 5, createdAt := 3 }]
    (Todo.mk 1 "a" true (some 5) 3) rfl

/-- C10: an update whose payload has neither `title` nor `completed` leaves
the store unchanged, succeeds with 200 whenever the token dispatch reaches a
task with the requested id, and then returns that task exactly as stored. -/
theorem claim_C10_empty_update_identity (secret now : Nat) (auth : Option RawToken)
    (id : Nat) (db : List Todo) :
    (updateTodo secret now auth id { title := none, completed := none } db).2 = db
    ∧ ((∃ t ∈ db, writeFilter secret now auth id t = true) →
      (updateTodo secret now auth id { title := none, completed := none } db).1.status
        = 200)
    ∧ (∀ t', (updateTodo secret now auth id
          { title := none, completed := none } db).1.body = some t' →
      t' ∈ db ∧ writeFilter secret now auth id t' = true) := by
  have he := findOneAndUpdate_empty (writeFilter secret now auth id) db
  refine ⟨?_, ?_, ?_⟩
  · simp only [updateTodo, he]
    cases h : db.find? (writeFilter secret now auth id) <;> simp [h]
  · intro hex
    have hs : (db.find? (writeFilter secret now auth id)).isSome :=
      List.find?_isSome.2 (by simpa using hex)
    obtain ⟨t0, ht0⟩ := Option.isSome_iff_exists.1 hs
    simp [updateTodo, he, ht0]
  · intro t' hb
    simp only [updateTodo, he] at hb
    cases h : db.find? (writeFilter secret now auth id) with
    | none =>
      rw [h] at hb
      simp at hb
    | some t0 =>
      rw [h] at hb
      obtain rfl : t0 = t' := by simpa using hb
      exact ⟨List.mem_of_find?_eq_some h, List.find?_some h⟩

/-- Witness for C10: an empty partial update on an existing task answers 200
with the stored task and does not change the store. -/
theorem claim_C10_empty_update_identity_witness :
    (updateTodo 0 0 none 1 { title := none, completed := none }
        [{ id := 1, title := "a", completed := false, userId := some 5, createdAt := 3 }]).2
      = [{ id := 1, title := "a", completed := false, userId := some 5, createdAt := 3 }]
    ∧ (updateTodo 0 0 none 1 { title := none, completed := none }
        [{ id := 1, title := "a", completed := false, userId := some 5, createdAt := 3 }]).1.status
      = 200
    ∧ (Todo.mk 1 "a" false (some 5) 3
        ∈ [{ id := 1, title := "a", completed := false, userId := some 5, createdAt := 3 : Todo }]
      ∧ writeFilter 0 0 none 1 (Todo.mk 1 "a" false (some 5) 3) = true) :=
  ⟨(claim_C10_empty_update_identity 0 0 none 1
      [{ id := 1, title := "a", completed := false, userId := some 5, createdAt := 3 }]).1,
   (claim_C10_empty_update_identity 0 0 none 1
      [{ id := 1, title := "a", completed := false, userId := some 5, createdAt := 3 }]).2.1
      (by decide),
   (claim_C10_empty_update_identity 0 0 none 1
      [{ id := 1, title := "a", completed := false, userId := some 5, createdAt := 3 }]).2.2
      (Todo.mk 1 "a" false (some 5) 3) rfl⟩

theorem register_success_shape {hash : String → String} {secret : Nat}
    {db : List User} {email password name : Option String} {newId now : Nat}
    (h : (register hash secret db email password name newId now).1.status = 201) :
    (register hash secret db email password name newId now).2
      = { id := newId, email := normalizeEmail (email.getD ""),
          password := hash (password.getD ""), name := name.getD "",
          createdAt := now } :: db := by
  by_cases hf : (isFalsy email || isFalsy password || isFalsy name) = true
  · simp [register, hf] at h
  · cases hfind : db.find? (fun u => u.email == normalizeEmail (email.getD "")) with
    | some u => simp [register, hf, hfind] at h
    | none => simp [register, hf, hfind]

/-- C5: once a registration for an email has succeeded, a second
registration whose email is case-insensitively equal fails with the 400
conflict response, for any supplied password and name, and the user store is
unchanged by it. -/
theorem claim_C5_duplicate_email (hash1 hash2 : String → String)
    (secret1 secret2 : Nat) (db : List User)
    (e1 p1 n1 e2 p2 n2 : Option String) (id1 now1 id2 now2 : Nat)
    (hfirst : (register hash1 secret1 db e1 p1 n1 id1 now1).1.status = 201)
    (heq : normalizeEmail (e2.getD "") = normalizeEmail (e1.getD ""))
    (he2 : isFalsy e2 = false) (hp2 : isFalsy p2 = false)
    (hn2 : isFalsy n2 = false) :
    register hash2 secret2 (register hash1 secret1 db e1 p1 n1 id1 now1).2
        e2 p2 n2 id2 now2
      = ({ status := 400, body := none,
           message := some "User already exists with this email" },
         (register hash1 secret1 db e1 p1 n1 id1 now1).2) := by
  rw [register_success_shape hfirst]
  simp [register, he2, hp2, hn2, List.find?, heq]

/-- Witness for C5: registering `ALICE@x.com` and then `alice@x.com` with a
different password and name yields the conflict response and the same
store. -/
theorem claim_C5_duplicate_email_witness :
    register (fun s => s) 0
        (register (fun s => s) 0 [] (some "ALICE@x.com") (some "pw") (some "Alice") 1 10).2
        (some "alice@x.com") (some "other") (some "Bob") 2 20
      = ({ status := 400, body := none,
           message := some "User already exists with this email" },
         (register (fun s => s) 0 [] (some "ALICE@x.com") (some "pw") (some "Alice") 1 10).2) :=
  claim_C5_duplicate_email (fun s => s) (fun s => s) 0 0 []
    (some "ALICE@x.com") (some "pw") (some "Alice")
    (some "alice@x.com") (some "other") (some "Bob") 1 10 2 20
    rfl (by decide) (by decide) (by decide) (by decide)

/-- C8: a login that fails because no user matches the email and a login
that fails because the hash comparison rejects the password produce the
identical response: 400 with the generic message. -/
theorem claim_C8_login_indistinguishable
    (compare1 compare2 : String → String → Bool) (secret1 secret2 : Nat)
    (db1 db2 : List User) (e1 p1 e2 p2 : Option String) (now1 now2 : Nat)
    (u : User)
    (he1 : isFalsy e1 = false) (hp1 : isFalsy p1 = false)
    (h1 : db1.find? (fun v => v.email == normalizeEmail (e1.getD "")) = none)
    (he2 : isFalsy e2 = false) (hp2 : isFalsy p2 = false)
    (h2 : db2.find? (fun v => v.email == normalizeEmail (e2.getD "")) = some u)
    (hc : compare2 (p2.getD "") u.password = false) :
    login compare1 secret1 db1 e1 p1 now1 = login compare2 secret2 db2 e2 p2 now2
    ∧ login compare1 secret1 db1 e1 p1 now1
        = { status := 400, body := none,
            message := some "Invalid email or password" } := by
  have hA : login compare1 secret1 db1 e1 p1 now1
      = { status := 400, body := none,
          message := some "Invalid email or password" } := by
    simp [login, he1, hp1, h1]
  have hB : login compare2 secret2 db2 e2 p2 now2
      = { status := 400, body := none,
          message := some "Invalid email or password" } := by
    simp [login, he2, hp2, h2, hc]
  exact ⟨hA.trans hB.symm, hA⟩

/-- Witness for C8: unknown email and wrong password give the same
response. -/
theorem claim_C8_login_indistinguishable_witness :
    login (fun _ _ => false) 0 [] (some "a@x.com") (some "pw") 0
      = login (fun _ _ => false) 0
          [{ id := 1, email := "b@x.com", password := "hh", name := "Bob", createdAt := 0 }]
          (some "b@x.com") (some "pw") 0
    ∧ login (fun _ _ => false) 0 [] (some "a@x.com") (some "pw") 0
      = { status := 400, body := none,
          message := some "Invalid email or password" } :=
  claim_C8_login_indistinguishable (fun _ _ => false) (fun _ _ => false) 0 0
    [] [{ id := 1, email := "b@x.com", password := "hh", name := "Bob", createdAt := 0 }]
    (some "a@x.com") (some "pw") (some "b@x.com") (some "pw") 0 0
    { id := 1, email := "b@x.com", password := "hh", name := "Bob", createdAt := 0 }
    (by decide) (by decide) rfl (by decide) (by decide) (by decide) rfl

end TodoApp
